import Mathlib

/-!
A shallow embedding of the `abbegm` EGM communication layer and proofs of
the specification claims about it.

Machine integers (`u32`, `u64`, `usize`) are modelled as `Nat` with explicit
`% 2 ^ 32` / `% 2 ^ 64` reductions at the operations where the source wraps.
IEEE `f64` values are modelled by `F64`: either NaN or an exact rational
number; the claims under study depend only on NaN-ness and on exact value
propagation, never on rounding.
-/

deriving instance DecidableEq for Except

namespace Abbegm

/-- Model of an `f64` value: NaN, or a finite value carried exactly as a
rational number. -/
inductive F64 where
  | nan : F64
  | fin : ℚ → F64
deriving DecidableEq, Repr

/-- Model of `f64::is_nan`. -/
def F64.is_nan : F64 → Bool
  | .nan => true
  | .fin _ => false

/-! ## Generated message types (src/generated/abb.egm.rs)

Each protobuf message is a structure; `optional` fields are `Option`s. -/

/-- `EgmHeader`: seqno (u32), send timestamp in ms (u32), message type tag. -/
structure EgmHeader where
  seqno : Option Nat
  tm : Option Nat
  mtype : Option Int
deriving DecidableEq, Repr

/-- The `egm_header::MessageType` enumeration. -/
inductive MessageType where
  | msgtypeUndefined
  | msgtypeCommand
  | msgtypeData
  | msgtypeCorrection
  | msgtypePathCorrection
deriving DecidableEq, Repr

/-- The `i32` discriminant of a `MessageType` (the `kind as i32` cast). -/
def MessageType.toi32 : MessageType → Int
  | .msgtypeUndefined => 0
  | .msgtypeCommand => 1
  | .msgtypeData => 2
  | .msgtypeCorrection => 3
  | .msgtypePathCorrection => 4

/-- `EgmCartesian`: x, y, z in millimeters, all required. -/
structure EgmCartesian where
  x : F64
  y : F64
  z : F64
deriving DecidableEq, Repr

/-- `EgmQuaternion`: u0..u3 in (w, x, y, z) order, all required. -/
structure EgmQuaternion where
  u0 : F64
  u1 : F64
  u2 : F64
  u3 : F64
deriving DecidableEq, Repr

/-- `EgmEuler`: x, y, z rotations in degrees, all required. -/
structure EgmEuler where
  x : F64
  y : F64
  z : F64
deriving DecidableEq, Repr

/-- `EgmClock`: seconds (u64) and microseconds (u64), both required. -/
structure EgmClock where
  sec : Nat
  usec : Nat
deriving DecidableEq, Repr

/-- `EgmPose`: optional position, optional quaternion orientation, optional
euler orientation. -/
structure EgmPose where
  pos : Option EgmCartesian
  orient : Option EgmQuaternion
  euler : Option EgmEuler
deriving DecidableEq, Repr

/-- `EgmCartesianSpeed`: repeated `double` value list. -/
structure EgmCartesianSpeed where
  value : List F64
deriving DecidableEq, Repr

/-- `EgmJoints`: repeated `double` joint list. -/
structure EgmJoints where
  joints : List F64
deriving DecidableEq, Repr

/-- `EgmExternalJoints`: repeated `double` joint list. -/
structure EgmExternalJoints where
  joints : List F64
deriving DecidableEq, Repr

/-- `EgmPlanned`: optional joints, optional cartesian pose, optional
external joints, optional time. -/
structure EgmPlanned where
  joints : Option EgmJoints
  cartesian : Option EgmPose
  external_joints : Option EgmExternalJoints
  time : Option EgmClock
deriving DecidableEq, Repr

/-- `EgmSpeedRef`: optional joints, optional cartesian speed, optional
external joints. -/
structure EgmSpeedRef where
  joints : Option EgmJoints
  cartesians : Option EgmCartesianSpeed
  external_joints : Option EgmExternalJoints
deriving DecidableEq, Repr

/-- `EgmPathCorr`: required position and required age in ms (u32). -/
structure EgmPathCorr where
  pos : EgmCartesian
  age : Nat
deriving DecidableEq, Repr

/-- `EgmFeedBack`: optional joints, pose, external joints and time. -/
structure EgmFeedBack where
  joints : Option EgmJoints
  cartesian : Option EgmPose
  external_joints : Option EgmExternalJoints
  time : Option EgmClock
deriving DecidableEq, Repr

/-- `EgmMotorState`: required enumeration value stored as `i32`. -/
structure EgmMotorState where
  state : Int
deriving DecidableEq, Repr

/-- `EgmMciState`: required enumeration value stored as `i32`. -/
structure EgmMciState where
  state : Int
deriving DecidableEq, Repr

/-- `EgmRapidCtrlExecState`: required enumeration value stored as `i32`. -/
structure EgmRapidCtrlExecState where
  state : Int
deriving DecidableEq, Repr

/-- `EgmTestSignals`: repeated `double` signal list. -/
structure EgmTestSignals where
  signals : List F64
deriving DecidableEq, Repr

/-- `EgmMeasuredForce`: repeated `double` force list. -/
structure EgmMeasuredForce where
  force : List F64
deriving DecidableEq, Repr

/-- `EgmRobot`: the inbound message from the robot controller. -/
structure EgmRobot where
  header : Option EgmHeader
  feed_back : Option EgmFeedBack
  planned : Option EgmPlanned
  motor_state : Option EgmMotorState
  mci_state : Option EgmMciState
  mci_convergence_met : Option Bool
  test_signals : Option EgmTestSignals
  rapid_exec_state : Option EgmRapidCtrlExecState
  measured_force : Option EgmMeasuredForce
  utilization_rate : Option F64
deriving DecidableEq, Repr

/-- `EgmSensor`: the outbound message from the sensor. -/
structure EgmSensor where
  header : Option EgmHeader
  planned : Option EgmPlanned
  speed_ref : Option EgmSpeedRef
deriving DecidableEq, Repr

/-- `EgmSensorPathCorr`: outbound path-correction message. -/
structure EgmSensorPathCorr where
  header : Option EgmHeader
  path_corr : Option EgmPathCorr
deriving DecidableEq, Repr

/-! ## Header constructors (src/lib.rs, impl msg::EgmHeader) -/

/-- `EgmHeader::new(seqno, timestamp_ms, kind)`. -/
def EgmHeader.new (seqno : Nat) (timestamp_ms : Nat) (kind : MessageType) : EgmHeader :=
  { seqno := some seqno, tm := some timestamp_ms, mtype := some kind.toi32 }

/-- `EgmHeader::command`. -/
def EgmHeader.command (seqno : Nat) (timestamp_ms : Nat) : EgmHeader :=
  EgmHeader.new seqno timestamp_ms .msgtypeCommand

/-- `EgmHeader::data`. -/
def EgmHeader.data (seqno : Nat) (timestamp_ms : Nat) : EgmHeader :=
  EgmHeader.new seqno timestamp_ms .msgtypeData

/-- `EgmHeader::correction`. -/
def EgmHeader.correction (seqno : Nat) (timestamp_ms : Nat) : EgmHeader :=
  EgmHeader.new seqno timestamp_ms .msgtypeCorrection

/-- `EgmHeader::path_correction`. -/
def EgmHeader.path_correction (seqno : Nat) (timestamp_ms : Nat) : EgmHeader :=
  EgmHeader.new seqno timestamp_ms .msgtypePathCorrection

/-! ## Clock arithmetic (src/lib.rs, impl msg::EgmClock and Add impls) -/

/-- `std::time::Duration`: whole seconds (u64) and a sub-second nanosecond
part (u32, less than 1_000_000_000 for any value built by the `Duration`
constructors). -/
structure Duration where
  secs : Nat
  nanos : Nat
deriving DecidableEq, Repr

/-- `Duration::from_secs`. -/
def Duration.from_secs (s : Nat) : Duration :=
  { secs := s, nanos := 0 }

/-- `Duration::from_millis`. -/
def Duration.from_millis (ms : Nat) : Duration :=
  { secs := ms / 1000, nanos := ms % 1000 * 1000000 }

/-- `Duration.from_micros`. -/
def Duration.from_micros (us : Nat) : Duration :=
  { secs := us / 1000000, nanos := us % 1000000 * 1000 }

/-- `Duration::as_secs`. -/
def Duration.as_secs (d : Duration) : Nat :=
  d.secs

/-- `Duration::subsec_micros`: the sub-second nanoseconds divided by 1000. -/
def Duration.subsec_micros (d : Duration) : Nat :=
  d.nanos / 1000

/-- `EgmClock::new(sec, usec)`. -/
def EgmClock.new (sec : Nat) (usec : Nat) : EgmClock :=
  { sec, usec }

/-- `EgmClock::as_timestamp_ms`:
`self.sec.wrapping_mul(1_000).wrapping_add(self.usec / 1_000) as u32`.
The two u64 wrapping operations reduce modulo `2 ^ 64`, the final `as u32`
cast truncates modulo `2 ^ 32`. -/
def EgmClock.as_timestamp_ms (c : EgmClock) : Nat :=
  (c.sec * 1000 % 2 ^ 64 + c.usec / 1000) % 2 ^ 64 % 2 ^ 32

/-- `impl Add<Duration> for msg::EgmClock` (src/lib.rs lines 226-237):
`usec = self.usec + right.subsec_micros(); sec = self.sec + right.as_secs()
+ usec / 1_000_000; usec % 1_000_000`.  Plain u64 `+` is modelled with
wraparound modulo `2 ^ 64`. -/
def EgmClock.addDuration (c : EgmClock) (right : Duration) : EgmClock :=
  let usec := (c.usec + right.subsec_micros) % 2 ^ 64
  { sec := ((c.sec + right.as_secs) % 2 ^ 64 + usec / 1000000) % 2 ^ 64
    usec := usec % 1000000 }

/-- `impl Add<msg::EgmClock> for Duration`: delegates to `right + self`. -/
def Duration.addClock (d : Duration) (right : EgmClock) : EgmClock :=
  right.addDuration d

/-! ## Transfer integrity check (src/error.rs) -/

/-- `IncompleteTransmissionError { transferred, total }` (byte counts are
`usize`, modelled as `Nat`). -/
structure IncompleteTransmissionError where
  transferred : Nat
  total : Nat
deriving DecidableEq, Repr

/-- `check_transfer(transferred, total)` (src/error.rs lines 2-8). -/
def check_transfer (transferred : Nat) (total : Nat) :
    Except IncompleteTransmissionError Unit :=
  if transferred = total then
    .ok ()
  else
    .error { transferred, total }

/-! ## NaN validation (src/lib.rs, the has_nan methods) -/

/-- `EgmCartesian::has_nan`. -/
def EgmCartesian.has_nan (c : EgmCartesian) : Bool :=
  c.x.is_nan || c.y.is_nan || c.z.is_nan

/-- `EgmQuaternion::has_nan`. -/
def EgmQuaternion.has_nan (q : EgmQuaternion) : Bool :=
  q.u0.is_nan || q.u1.is_nan || q.u2.is_nan || q.u3.is_nan

/-- `EgmEuler::has_nan`. -/
def EgmEuler.has_nan (e : EgmEuler) : Bool :=
  e.x.is_nan || e.y.is_nan || e.z.is_nan

/-- `EgmPose::has_nan`. -/
def EgmPose.has_nan (p : EgmPose) : Bool :=
  ((p.pos.map EgmCartesian.has_nan).getD false)
    || ((p.orient.map EgmQuaternion.has_nan).getD false)
    || ((p.euler.map EgmEuler.has_nan).getD false)

/-- `EgmCartesianSpeed::has_nan`. -/
def EgmCartesianSpeed.has_nan (s : EgmCartesianSpeed) : Bool :=
  s.value.any F64.is_nan

/-- `EgmJoints::has_nan`. -/
def EgmJoints.has_nan (j : EgmJoints) : Bool :=
  j.joints.any F64.is_nan

/-- `EgmExternalJoints::has_nan`. -/
def EgmExternalJoints.has_nan (j : EgmExternalJoints) : Bool :=
  j.joints.any F64.is_nan

/-- `EgmPlanned::has_nan`: checks joints, cartesian and external_joints. -/
def EgmPlanned.has_nan (p : EgmPlanned) : Bool :=
  ((p.joints.map EgmJoints.has_nan).getD false)
    || ((p.cartesian.map EgmPose.has_nan).getD false)
    || ((p.external_joints.map EgmExternalJoints.has_nan).getD false)

/-- `EgmSpeedRef::has_nan`: checks joints, cartesians and external_joints. -/
def EgmSpeedRef.has_nan (s : EgmSpeedRef) : Bool :=
  ((s.joints.map EgmJoints.has_nan).getD false)
    || ((s.cartesians.map EgmCartesianSpeed.has_nan).getD false)
    || ((s.external_joints.map EgmExternalJoints.has_nan).getD false)

/-- `EgmPathCorr::has_nan`. -/
def EgmPathCorr.has_nan (p : EgmPathCorr) : Bool :=
  p.pos.has_nan

/-- `EgmSensor::has_nan`: checks planned and speed_ref. -/
def EgmSensor.has_nan (s : EgmSensor) : Bool :=
  ((s.planned.map EgmPlanned.has_nan).getD false)
    || ((s.speed_ref.map EgmSpeedRef.has_nan).getD false)

/-- `EgmSensorPathCorr::has_nan`. -/
def EgmSensorPathCorr.has_nan (s : EgmSensorPathCorr) : Bool :=
  (s.path_corr.map EgmPathCorr.has_nan).getD false

/-- `EgmFeedBack::has_nan`: checks joints, cartesian and external_joints. -/
def EgmFeedBack.has_nan (f : EgmFeedBack) : Bool :=
  ((f.joints.map EgmJoints.has_nan).getD false)
    || ((f.cartesian.map EgmPose.has_nan).getD false)
    || ((f.external_joints.map EgmExternalJoints.has_nan).getD false)

/-- `EgmMeasuredForce::has_nan`. -/
def EgmMeasuredForce.has_nan (m : EgmMeasuredForce) : Bool :=
  m.force.any F64.is_nan

/-- `EgmRobot::has_nan` (src/lib.rs lines 649-656): checks feed_back,
planned, measured_force and utilization_rate. -/
def EgmRobot.has_nan (r : EgmRobot) : Bool :=
  ((r.feed_back.map EgmFeedBack.has_nan).getD false)
    || ((r.planned.map EgmPlanned.has_nan).getD false)
    || ((r.measured_force.map EgmMeasuredForce.has_nan).getD false)
    || ((r.utilization_rate.map F64.is_nan).getD false)

/-! ## Spec-side reachable-NaN-leaf predicates

These follow the specification's words ("at least one numeric leaf reachable
from the message", walking every `f64` leaf of the generated message
structures), to be compared with the source `has_nan` methods above. -/

/-- Spec reading: some `f64` leaf of an `EgmPose` is NaN. -/
def EgmPose.specNanLeaf (p : EgmPose) : Bool :=
  ((p.pos.map EgmCartesian.has_nan).getD false)
    || ((p.orient.map EgmQuaternion.has_nan).getD false)
    || ((p.euler.map EgmEuler.has_nan).getD false)

/-- Spec reading: some `f64` leaf of an `EgmPlanned` is NaN. -/
def EgmPlanned.specNanLeaf (p : EgmPlanned) : Bool :=
  ((p.joints.map EgmJoints.has_nan).getD false)
    || ((p.cartesian.map EgmPose.specNanLeaf).getD false)
    || ((p.external_joints.map EgmExternalJoints.has_nan).getD false)

/-- Spec reading: some `f64` leaf of an `EgmSpeedRef` is NaN. -/
def EgmSpeedRef.specNanLeaf (s : EgmSpeedRef) : Bool :=
  ((s.joints.map EgmJoints.has_nan).getD false)
    || ((s.cartesians.map EgmCartesianSpeed.has_nan).getD false)
    || ((s.external_joints.map EgmExternalJoints.has_nan).getD false)

/-- Spec reading: some `f64` leaf of an `EgmFeedBack` is NaN. -/
def EgmFeedBack.specNanLeaf (f : EgmFeedBack) : Bool :=
  ((f.joints.map EgmJoints.has_nan).getD false)
    || ((f.cartesian.map EgmPose.specNanLeaf).getD false)
    || ((f.external_joints.map EgmExternalJoints.has_nan).getD false)

/-- Spec reading: some `f64` leaf of an `EgmSensor` is NaN.  The `f64`
leaves of an `EgmSensor` live in its planned target and speed reference
(headers and clocks hold only unsigned integers). -/
def EgmSensor.specNanLeaf (s : EgmSensor) : Bool :=
  ((s.planned.map EgmPlanned.specNanLeaf).getD false)
    || ((s.speed_ref.map EgmSpeedRef.specNanLeaf).getD false)

/-- Spec reading: some `f64` leaf of an `EgmRobot` is NaN.  The `f64`
leaves of an `EgmRobot` live in feed_back, planned, test_signals,
measured_force and utilization_rate (all remaining fields hold integers,
enumerations or booleans). -/
def EgmRobot.specNanLeaf (r : EgmRobot) : Bool :=
  ((r.feed_back.map EgmFeedBack.specNanLeaf).getD false)
    || ((r.planned.map EgmPlanned.specNanLeaf).getD false)
    || ((r.test_signals.map (fun t => t.signals.any F64.is_nan)).getD false)
    || ((r.measured_force.map EgmMeasuredForce.has_nan).getD false)
    || ((r.utilization_rate.map F64.is_nan).getD false)

/-! ## Builder helpers (src/lib.rs, impl msg::EgmPlanned / EgmSpeedRef /
EgmSensor) -/

/-- `EgmPlanned::joints(joints, time)`. -/
def EgmPlanned.joints_target (joints : EgmJoints) (time : EgmClock) : EgmPlanned :=
  { time := some time, joints := some joints, cartesian := none, external_joints := none }

/-- `EgmPlanned::pose(pose, time)`. -/
def EgmPlanned.pose_target (pose : EgmPose) (time : EgmClock) : EgmPlanned :=
  { time := some time, cartesian := some pose, joints := none, external_joints := none }

/-- `EgmSpeedRef::joints(joints)`. -/
def EgmSpeedRef.joints_ref (joints : EgmJoints) : EgmSpeedRef :=
  { joints := some joints, external_joints := none, cartesians := none }

/-- `EgmSpeedRef::cartesian(cartesian)`. -/
def EgmSpeedRef.cartesian_ref (cartesian : EgmCartesianSpeed) : EgmSpeedRef :=
  { cartesians := some cartesian, joints := none, external_joints := none }

/-- `EgmSensor::joint_target(sequence_number, joints, time)`. -/
def EgmSensor.joint_target (sequence_number : Nat) (joints : EgmJoints)
    (time : EgmClock) : EgmSensor :=
  { header := some (EgmHeader.correction sequence_number time.as_timestamp_ms)
    planned := some (EgmPlanned.joints_target joints time)
    speed_ref := none }

/-- `EgmSensor::joint_target_with_speed(sequence_number, joints, speed, time)`. -/
def EgmSensor.joint_target_with_speed (sequence_number : Nat) (joints : EgmJoints)
    (speed : EgmJoints) (time : EgmClock) : EgmSensor :=
  { header := some (EgmHeader.correction sequence_number time.as_timestamp_ms)
    planned := some (EgmPlanned.joints_target joints time)
    speed_ref := some (EgmSpeedRef.joints_ref speed) }

/-- `EgmSensor::pose_target(sequence_number, pose, time)`. -/
def EgmSensor.pose_target (sequence_number : Nat) (pose : EgmPose)
    (time : EgmClock) : EgmSensor :=
  { header := some (EgmHeader.correction sequence_number time.as_timestamp_ms)
    planned := some (EgmPlanned.pose_target pose time)
    speed_ref := none }

/-- `EgmSensor::pose_target_with_speed(sequence_number, pose, speed, time)`. -/
def EgmSensor.pose_target_with_speed (sequence_number : Nat) (pose : EgmPose)
    (speed : EgmCartesianSpeed) (time : EgmClock) : EgmSensor :=
  { header := some (EgmHeader.correction sequence_number time.as_timestamp_ms)
    planned := some (EgmPlanned.pose_target pose time)
    speed_ref := some (EgmSpeedRef.cartesian_ref speed) }

/-! ## Error taxonomy and the send pipeline
(src/error.rs, src/sync_peer.rs, src/tokio_peer.rs)

The transport and the protobuf codec are external collaborators; the send
pipeline is modelled as a pure function over an arbitrary `encode` function
and an arbitrary transport `send` function, instrumented with a log of the
messages handed to the codec and of the byte buffers handed to the
transport. -/

/-- `InvalidMessageError`. -/
inductive InvalidMessageError where
  | messageHasNan
deriving DecidableEq, Repr

/-- `prost::EncodeError`, opaque to this layer; modelled by a code. -/
structure EncodeError where
  code : Nat
deriving DecidableEq, Repr

/-- `std::io::Error`, reduced to what the layer inspects: its kind is
either `WouldBlock` or anything else (carried as a code). -/
inductive IoError where
  | wouldBlock
  | other : Nat → IoError
deriving DecidableEq, Repr

/-- `SendError` (src/error.rs lines 27-33). -/
inductive SendError where
  | invalidMessage : InvalidMessageError → SendError
  | io : IoError → SendError
  | encode : EncodeError → SendError
  | incompleteTransmission : IncompleteTransmissionError → SendError
deriving DecidableEq, Repr

/-- `InvalidMessageError::check_sensor_msg` (src/error.rs lines 44-50). -/
def InvalidMessageError.check_sensor_msg (message : EgmSensor) :
    Except InvalidMessageError Unit :=
  if message.has_nan then
    .error .messageHasNan
  else
    .ok ()

/-- A byte buffer handed to the transport. -/
abbrev ByteBuffer := List Nat

/-- What a send operation passed to its external collaborators: the
messages given to the protobuf encoder and the byte buffers given to the
transport send call. -/
structure SendLog where
  encoded : List EgmSensor
  transmitted : List ByteBuffer
deriving DecidableEq, Repr

/-- The empty log: nothing encoded, nothing transmitted. -/
def SendLog.empty : SendLog :=
  { encoded := [], transmitted := [] }

/-- The common body of every send operation (src/sync_peer.rs lines
101-107 and 110-116, src/tokio_peer.rs lines 119-125, 128-134, 193-199 and
202-208): `check_sensor_msg(msg)?; let buffer = encode_to_vec(msg)?; let
bytes_sent = transport_send(&buffer)?; check_transfer(bytes_sent,
buffer.len())?`.  `encode` models the external protobuf encoder and
`transport_send` the external socket send call. -/
def sendPipeline (encode : EgmSensor → Except EncodeError ByteBuffer)
    (transport_send : ByteBuffer → Except IoError Nat)
    (msg : EgmSensor) : Except SendError Unit × SendLog :=
  match InvalidMessageError.check_sensor_msg msg with
  | .error e => (.error (.invalidMessage e), SendLog.empty)
  | .ok () =>
    match encode msg with
    | .error e => (.error (.encode e), { encoded := [msg], transmitted := [] })
    | .ok buffer =>
      match transport_send buffer with
      | .error e => (.error (.io e), { encoded := [msg], transmitted := [buffer] })
      | .ok bytes_sent =>
        match check_transfer bytes_sent (List.length buffer) with
        | .error e =>
          (.error (.incompleteTransmission e), { encoded := [msg], transmitted := [buffer] })
        | .ok () => (.ok (), { encoded := [msg], transmitted := [buffer] })

/-- A remote socket address, opaque to this layer. -/
structure SocketAddr where
  addr : Nat
deriving DecidableEq, Repr

/-- `sync_peer::EgmPeer::send` (src/sync_peer.rs lines 101-107). -/
def syncPeerSend (encode : EgmSensor → Except EncodeError ByteBuffer)
    (socket_send : ByteBuffer → Except IoError Nat)
    (msg : EgmSensor) : Except SendError Unit × SendLog :=
  sendPipeline encode socket_send msg

/-- `sync_peer::EgmPeer::send_to` (src/sync_peer.rs lines 110-116). -/
def syncPeerSendTo (encode : EgmSensor → Except EncodeError ByteBuffer)
    (socket_send_to : ByteBuffer → SocketAddr → Except IoError Nat)
    (msg : EgmSensor) (target : SocketAddr) : Except SendError Unit × SendLog :=
  sendPipeline encode (fun buffer => socket_send_to buffer target) msg

/-- `tokio_peer::EgmPeer::send` (src/tokio_peer.rs lines 119-125). -/
def tokioPeerSend (encode : EgmSensor → Except EncodeError ByteBuffer)
    (socket_send : ByteBuffer → Except IoError Nat)
    (msg : EgmSensor) : Except SendError Unit × SendLog :=
  sendPipeline encode socket_send msg

/-- `tokio_peer::EgmPeer::send_to` (src/tokio_peer.rs lines 128-134). -/
def tokioPeerSendTo (encode : EgmSensor → Except EncodeError ByteBuffer)
    (socket_send_to : ByteBuffer → SocketAddr → Except IoError Nat)
    (msg : EgmSensor) (target : SocketAddr) : Except SendError Unit × SendLog :=
  sendPipeline encode (fun buffer => socket_send_to buffer target) msg

/-- `tokio_peer::EgmSender::send` (src/tokio_peer.rs lines 193-199). -/
def tokioSenderSend (encode : EgmSensor → Except EncodeError ByteBuffer)
    (half_send : ByteBuffer → Except IoError Nat)
    (msg : EgmSensor) : Except SendError Unit × SendLog :=
  sendPipeline encode half_send msg

/-- `tokio_peer::EgmSender::send_to` (src/tokio_peer.rs lines 202-208). -/
def tokioSenderSendTo (encode : EgmSensor → Except EncodeError ByteBuffer)
    (half_send_to : ByteBuffer → SocketAddr → Except IoError Nat)
    (msg : EgmSensor) (target : SocketAddr) : Except SendError Unit × SendLog :=
  sendPipeline encode (fun buffer => half_send_to buffer target) msg

/-! ## The synchronous purge operation (src/sync_peer.rs lines 73-95)

The underlying UDP socket is modelled by its blocking-mode flag plus two
scripts prescribing the outcomes of the external calls: one entry per
`recv_from` call (`Except.ok n` = received a datagram of `n` bytes) and one
entry per `set_nonblocking` call (`none` = the call succeeds).  A call made
after its script is exhausted succeeds (for `recv_from`: the queue is empty
and the non-blocking read reports `WouldBlock`). -/

/-- The state of a `std::net::UdpSocket` as seen by `purge_recv_queue`. -/
structure UdpState where
  nonblocking : Bool
  recvScript : List (Except IoError Nat)
  setNbScript : List (Option IoError)
deriving DecidableEq, Repr

/-- `UdpSocket::set_nonblocking(b)`: consumes one entry of the script; on
success the mode becomes `b`, on failure the mode is unchanged. -/
def UdpState.set_nonblocking (s : UdpState) (b : Bool) :
    Except IoError Unit × UdpState :=
  match s.setNbScript with
  | [] => (.ok (), { s with nonblocking := b })
  | none :: rest => (.ok (), { s with nonblocking := b, setNbScript := rest })
  | some e :: rest => (.error e, { s with setNbScript := rest })

/-- The read loop of `purge_recv_queue`: call `recv_from` until it fails,
breaking with `Ok(())` on a `WouldBlock` error and with `Err(e)` on any
other error.  Returns the loop result and the remaining script. -/
def recvPurgeLoop : List (Except IoError Nat) →
    Except IoError Unit × List (Except IoError Nat)
  | [] => (.ok (), [])
  | .ok _ :: rest => recvPurgeLoop rest
  | .error e :: rest =>
    if e = .wouldBlock then (.ok (), rest) else (.error e, rest)

/-- `sync_peer::EgmPeer::purge_recv_queue` (src/sync_peer.rs lines 73-95):
`set_nonblocking(true)?`, then the read loop, then
`set_nonblocking(false)`, then `read_loop_result?; restore_blocking_result`. -/
def purge_recv_queue (s : UdpState) : Except IoError Unit × UdpState :=
  match s.set_nonblocking true with
  | (.error e, s1) => (.error e, s1)
  | (.ok (), s1) =>
    let step := recvPurgeLoop s1.recvScript
    let s2 := { s1 with recvScript := step.2 }
    let restore := s2.set_nonblocking false
    match step.1 with
    | .error e => (.error e, restore.2)
    | .ok () => (restore.1, restore.2)

/-! ## Geometric adapter (src/nalgebra.rs)

The math-side types (`nalgebra::Vector3<f64>`, `nalgebra::Quaternion<f64>`,
`nalgebra::UnitQuaternion<f64>`, `nalgebra::Isometry3<f64>`) are modelled
with `F64` components.  Arithmetic on `F64` is exact rational arithmetic
with NaN propagation; `F64.sqrtv` is exact whenever its argument is a
perfect rational square (which covers every computation appearing in the
theorems below). -/

/-- `F64` addition: NaN-propagating, exact on finite values. -/
def F64.addv : F64 → F64 → F64
  | .fin a, .fin b => .fin (a + b)
  | _, _ => .nan

/-- `F64` multiplication: NaN-propagating, exact on finite values. -/
def F64.mulv : F64 → F64 → F64
  | .fin a, .fin b => .fin (a * b)
  | _, _ => .nan

/-- `F64` division: NaN-propagating, exact on finite values with a nonzero
divisor (division by zero, which produces an infinity or NaN in IEEE
arithmetic, is collapsed to NaN; no claim below reaches that case). -/
def F64.divv : F64 → F64 → F64
  | .fin a, .fin b => if b = 0 then .nan else .fin (a / b)
  | _, _ => .nan

/-- `F64` square root: NaN on NaN and on negative arguments; `Rat.sqrt` is
the exact root whenever the argument is a perfect rational square (which
covers every root taken in the theorems below) and a truncated
approximation otherwise, mirroring that an inexact `f64` square root is not
the exact mathematical root either. -/
def F64.sqrtv : F64 → F64
  | .nan => .nan
  | .fin a => if a < 0 then .nan else .fin (Rat.sqrt a)

/-- `nalgebra::Vector3<f64>`. -/
structure Vector3 where
  x : F64
  y : F64
  z : F64
deriving DecidableEq, Repr

/-- `From<&msg::EgmCartesian> for nalgebra::Vector3<f64>`. -/
def Vector3.ofEgmCartesian (c : EgmCartesian) : Vector3 :=
  { x := c.x, y := c.y, z := c.z }

/-- `From<&nalgebra::Vector3<f64>> for msg::EgmCartesian`
(`EgmCartesian::from_mm(other.x, other.y, other.z)`). -/
def EgmCartesian.ofVector3 (v : Vector3) : EgmCartesian :=
  { x := v.x, y := v.y, z := v.z }

/-- The squared norm `u0*u0 + u1*u1 + u2*u2 + u3*u3` of a quaternion. -/
def EgmQuaternion.normSq (q : EgmQuaternion) : F64 :=
  (((q.u0.mulv q.u0).addv (q.u1.mulv q.u1)).addv (q.u2.mulv q.u2)).addv (q.u3.mulv q.u3)

/-- Models the external call `nalgebra::UnitQuaternion::from_quaternion`,
whose documented behavior is to normalize its argument: every component is
divided by the norm (the square root of `normSq`). -/
def EgmQuaternion.normalize (q : EgmQuaternion) : EgmQuaternion :=
  let n := q.normSq.sqrtv
  { u0 := q.u0.divv n, u1 := q.u1.divv n, u2 := q.u2.divv n, u3 := q.u3.divv n }

/-- `nalgebra::Isometry3<f64>`: a translation vector and a rotation stored
as a unit quaternion (kept here as the underlying quaternion record). -/
structure Isometry3 where
  translation : Vector3
  rotation : EgmQuaternion
deriving DecidableEq, Repr

/-- `TryFromEgmPoseError` (src/nalgebra.rs lines 147-151). -/
inductive TryFromEgmPoseError where
  | missingPosition
  | missingOrientation
deriving DecidableEq, Repr

/-- `TryFrom<&msg::EgmPose> for nalgebra::Isometry3<f64>`
(src/nalgebra.rs lines 119-131): `pos.ok_or(MissingPosition)?`,
`orient.ok_or(MissingOrientation)?`, then
`Isometry3::from_parts(Vector3::from(position).into(), orientation.into())`
where `orientation.into()` is `UnitQuaternion::from_quaternion`
(normalization). -/
def Isometry3.tryOfEgmPose (other : EgmPose) :
    Except TryFromEgmPoseError Isometry3 :=
  match other.pos with
  | none => .error .missingPosition
  | some position =>
    match other.orient with
    | none => .error .missingOrientation
    | some orientation =>
      .ok { translation := Vector3.ofEgmCartesian position
            rotation := orientation.normalize }

/-- `EgmPose::new(position, orientation)` (src/lib.rs lines 300-306). -/
def EgmPose.new (position : EgmCartesian) (orientation : EgmQuaternion) : EgmPose :=
  { pos := some position, orient := some orientation, euler := none }

/-- `From<&nalgebra::Isometry3<f64>> for msg::EgmPose` (src/nalgebra.rs
lines 133-137): `EgmPose::new(other.translation.vector, other.rotation)`;
the stored unit quaternion's components are read back verbatim. -/
def EgmPose.ofIsometry3 (other : Isometry3) : EgmPose :=
  EgmPose.new (EgmCartesian.ofVector3 other.translation) other.rotation

/-- `TryFromEgmCartesianSpeedError` (src/nalgebra.rs lines 142-145). -/
inductive TryFromEgmCartesianSpeedError where
  | wrongNumberOfValues : Nat → TryFromEgmCartesianSpeedError
deriving DecidableEq, Repr

/-- `TryFrom<&msg::EgmCartesianSpeed> for nalgebra::Vector3<f64>`
(src/nalgebra.rs lines 47-57): succeeds with the first three list entries
iff `value.len() == 3`, otherwise fails with
`WrongNumberOfValues(value.len())`. -/
def Vector3.tryOfEgmCartesianSpeed (other : EgmCartesianSpeed) :
    Except TryFromEgmCartesianSpeedError Vector3 :=
  if h : other.value.length = 3 then
    .ok { x := other.value.get ⟨0, by omega⟩
          y := other.value.get ⟨1, by omega⟩
          z := other.value.get ⟨2, by omega⟩ }
  else
    .error (.wrongNumberOfValues other.value.length)

/-- `EgmCartesianSpeed::from_xyz_mm(x, y, z)` (src/lib.rs lines 320-322). -/
def EgmCartesianSpeed.from_xyz_mm (x y z : F64) : EgmCartesianSpeed :=
  { value := [x, y, z] }

/-- `From<&nalgebra::Vector3<f64>> for msg::EgmCartesianSpeed`
(src/nalgebra.rs lines 59-63). -/
def EgmCartesianSpeed.ofVector3 (other : Vector3) : EgmCartesianSpeed :=
  EgmCartesianSpeed.from_xyz_mm other.x other.y other.z

/-! ## Concrete example messages used by counterexamples and witnesses -/

/-- An `EgmRobot` whose only NaN sits in the test-signal list; every other
field is absent. -/
def nanTestSignalsRobot : EgmRobot :=
  { header := none, feed_back := none, planned := none, motor_state := none
    mci_state := none, mci_convergence_met := none
    test_signals := some { signals := [F64.nan] }
    rapid_exec_state := none, measured_force := none, utilization_rate := none }

/-- An `EgmSensor` carrying a NaN joint value in its planned target. -/
def nanJointSensor : EgmSensor :=
  { header := none
    planned := some { joints := some { joints := [F64.nan] }, cartesian := none
                      external_joints := none, time := none }
    speed_ref := none }

/-! ## Theorems -/

/-- C6: `check_transfer(t, n)` returns `Ok(())` iff `t == n`, and otherwise
returns an `IncompleteTransmissionError` carrying exactly the pair
`(transferred = t, total = n)`. -/
theorem check_transfer_ok_iff_eq (t n : Nat) :
    (check_transfer t n = .ok () ↔ t = n)
    ∧ (t ≠ n → check_transfer t n = .error { transferred := t, total := n }) := by
  refine ⟨⟨fun h => ?_, fun h => by simp [check_transfer, h]⟩,
    fun h => by simp [check_transfer, h]⟩
  by_contra hne
  simp [check_transfer, hne] at h

/-- Witness for C6: `check_transfer(1, 2)` errors with payload `(1, 2)` and
`check_transfer(3, 3)` succeeds. -/
theorem check_transfer_ok_iff_eq_witness :
    check_transfer 1 2 = .error { transferred := 1, total := 2 }
    ∧ check_transfer 3 3 = .ok () :=
  ⟨(check_transfer_ok_iff_eq 1 2).2 (by decide),
    (check_transfer_ok_iff_eq 3 3).1.mpr rfl⟩

/-- C3 counterexample: the spec's third clock example is false on the code:
`(sec=10, usec=999_999) + 2us` is `(sec=11, usec=1)`, not
`(sec=12, usec=1)`. -/
theorem clock_add_third_example_false :
    EgmClock.addDuration (EgmClock.new 10 999999) (Duration.from_micros 2)
      ≠ EgmClock.new 12 1 := by
  decide

/-- C3 (amended): the clock-addition examples hold with the third example's
second count corrected from 12 to 11:
`(1, 500_000) + 1s = (2, 500_000)`, `(1, 500_000) + 600ms = (2, 100_000)`,
and `(10, 999_999) + 2us = (11, 1)`. -/
theorem clock_add_examples :
    EgmClock.addDuration (EgmClock.new 1 500000) (Duration.from_secs 1)
      = EgmClock.new 2 500000
    ∧ EgmClock.addDuration (EgmClock.new 1 500000) (Duration.from_millis 600)
      = EgmClock.new 2 100000
    ∧ EgmClock.addDuration (EgmClock.new 10 999999) (Duration.from_micros 2)
      = EgmClock.new 11 1 := by
  decide

/-- C9: for every clock (with any raw `sec` and `usec` values) and every
duration, the clock produced by addition has `usec` in `[0, 999_999]`: the
microseconds invariant is re-established by the final `% 1_000_000`. -/
theorem clock_add_usec_invariant (c : EgmClock) (d : Duration) :
    (c.addDuration d).usec < 1000000 := by
  simp only [EgmClock.addDuration]
  exact Nat.mod_lt _ (by norm_num)

/-- C2 (divergence witness): `EgmRobot::has_nan` misses the NaN sitting in
`test_signals`, so it returns `false` on a robot message that does have a
reachable NaN `f64` leaf, contradicting the claimed iff. -/
theorem robot_has_nan_misses_test_signals :
    nanTestSignalsRobot.has_nan = false
    ∧ nanTestSignalsRobot.specNanLeaf = true := by
  decide

/-- C10: every `EgmSensor` builder helper produces a header that is present
with message type Correction (discriminant 3, distinct from Command's 1),
the given sequence number and the timestamp `as_timestamp_ms` of the given
clock, and a planned target that is present and carries that same clock. -/
theorem sensor_builders_header_and_planned (seq : Nat) (j s : EgmJoints)
    (p : EgmPose) (cs : EgmCartesianSpeed) (t : EgmClock) :
    MessageType.msgtypeCorrection.toi32 ≠ MessageType.msgtypeCommand.toi32
    ∧ ((EgmSensor.joint_target seq j t).header
        = some { seqno := some seq, tm := some t.as_timestamp_ms
                 mtype := some MessageType.msgtypeCorrection.toi32 }
      ∧ (EgmSensor.joint_target seq j t).planned
        = some (EgmPlanned.joints_target j t)
      ∧ (EgmPlanned.joints_target j t).time = some t)
    ∧ ((EgmSensor.joint_target_with_speed seq j s t).header
        = some { seqno := some seq, tm := some t.as_timestamp_ms
                 mtype := some MessageType.msgtypeCorrection.toi32 }
      ∧ (EgmSensor.joint_target_with_speed seq j s t).planned
        = some (EgmPlanned.joints_target j t))
    ∧ ((EgmSensor.pose_target seq p t).header
        = some { seqno := some seq, tm := some t.as_timestamp_ms
                 mtype := some MessageType.msgtypeCorrection.toi32 }
      ∧ (EgmSensor.pose_target seq p t).planned
        = some (EgmPlanned.pose_target p t)
      ∧ (EgmPlanned.pose_target p t).time = some t)
    ∧ ((EgmSensor.pose_target_with_speed seq p cs t).header
        = some { seqno := some seq, tm := some t.as_timestamp_ms
                 mtype := some MessageType.msgtypeCorrection.toi32 }
      ∧ (EgmSensor.pose_target_with_speed seq p cs t).planned
        = some (EgmPlanned.pose_target p t)) := by
  exact ⟨by decide, ⟨rfl, rfl, rfl⟩, ⟨rfl, rfl⟩, ⟨rfl, rfl, rfl⟩, ⟨rfl, rfl⟩⟩

/-- On a NaN-carrying message the common send pipeline stops at validation:
it returns the invalid-message error and logs neither an encode call nor a
transport call. -/
lemma sendPipeline_nan (encode : EgmSensor → Except EncodeError ByteBuffer)
    (transport_send : ByteBuffer → Except IoError Nat)
    (msg : EgmSensor) (h : msg.has_nan = true) :
    sendPipeline encode transport_send msg
      = (.error (.invalidMessage .messageHasNan), SendLog.empty) := by
  simp [sendPipeline, InvalidMessageError.check_sensor_msg, h]

/-- C1: for every `EgmSensor` with `has_nan`, all six send operations (sync
peer `send`/`send_to`, tokio peer `send`/`send_to`, tokio send-half
`send`/`send_to`) return the MessageHasNan invalid-message error without
encoding the message or passing any bytes to the transport, for every
encoder and every transport. -/
theorem send_refuses_nan_message
    (encode : EgmSensor → Except EncodeError ByteBuffer)
    (socket_send half_send : ByteBuffer → Except IoError Nat)
    (socket_send_to half_send_to : ByteBuffer → SocketAddr → Except IoError Nat)
    (msg : EgmSensor) (target : SocketAddr) (h : msg.has_nan = true) :
    syncPeerSend encode socket_send msg
      = (.error (.invalidMessage .messageHasNan), SendLog.empty)
    ∧ syncPeerSendTo encode socket_send_to msg target
      = (.error (.invalidMessage .messageHasNan), SendLog.empty)
    ∧ tokioPeerSend encode socket_send msg
      = (.error (.invalidMessage .messageHasNan), SendLog.empty)
    ∧ tokioPeerSendTo encode socket_send_to msg target
      = (.error (.invalidMessage .messageHasNan), SendLog.empty)
    ∧ tokioSenderSend encode half_send msg
      = (.error (.invalidMessage .messageHasNan), SendLog.empty)
    ∧ tokioSenderSendTo encode half_send_to msg target
      = (.error (.invalidMessage .messageHasNan), SendLog.empty) :=
  ⟨sendPipeline_nan _ _ _ h, sendPipeline_nan _ _ _ h, sendPipeline_nan _ _ _ h,
    sendPipeline_nan _ _ _ h, sendPipeline_nan _ _ _ h, sendPipeline_nan _ _ _ h⟩

/-- Witness for C1: a sensor message with a NaN joint value is refused by
the sync peer's `send` (and the remaining operations) with an untouched
transport. -/
theorem send_refuses_nan_message_witness :
    nanJointSensor.has_nan = true
    ∧ syncPeerSend (fun _ => .ok []) (fun _ => .ok 0) nanJointSensor
      = (.error (.invalidMessage .messageHasNan), SendLog.empty)
    ∧ tokioSenderSendTo (fun _ => .ok []) (fun _ _ => .ok 0) nanJointSensor ⟨0⟩
      = (.error (.invalidMessage .messageHasNan), SendLog.empty) :=
  ⟨by decide,
    (send_refuses_nan_message (fun _ => .ok []) (fun _ => .ok 0) (fun _ => .ok 0)
      (fun _ _ => .ok 0) (fun _ _ => .ok 0) nanJointSensor ⟨0⟩ (by decide)).1,
    (send_refuses_nan_message (fun _ => .ok []) (fun _ => .ok 0) (fun _ => .ok 0)
      (fun _ _ => .ok 0) (fun _ _ => .ok 0) nanJointSensor ⟨0⟩ (by decide)).2.2.2.2.2⟩

/-- C4 counterexample: on a socket whose prior mode is non-blocking, a
successful `purge_recv_queue` run leaves the socket in blocking mode, so
the prior blocking mode is not restored on this (error-free) exit path. -/
theorem purge_does_not_restore_nonblocking_mode :
    (purge_recv_queue { nonblocking := true, recvScript := [], setNbScript := [] }).1
      = .ok ()
    ∧ (purge_recv_queue { nonblocking := true, recvScript := [], setNbScript := [] }).2.nonblocking
      ≠ true := by
  decide

/-- C4 (amended): whenever the initial switch to non-blocking mode
succeeds, `purge_recv_queue` attempts the mode restore on every exit path
(both `set_nonblocking` script entries are consumed), leaves the socket in
blocking mode whenever that restore call itself succeeds, and returns a
read-loop error in preference to a restore-mode error when both occur. -/
theorem purge_sets_blocking_and_prefers_read_error (s : UdpState)
    (h1 : s.setNbScript.head?.getD none = none) :
    (purge_recv_queue s).2.setNbScript = s.setNbScript.drop 2
    ∧ ((s.setNbScript.drop 1).head?.getD none = none →
        (purge_recv_queue s).2.nonblocking = false)
    ∧ (∀ e, (recvPurgeLoop s.recvScript).1 = .error e →
        (purge_recv_queue s).1 = .error e) := by
  obtain ⟨nb, rs, ss⟩ := s
  match ss, h1 with
  | [], _ =>
    rcases hrl : recvPurgeLoop rs with ⟨res, rem⟩
    rcases res with e | u
    · simp [purge_recv_queue, UdpState.set_nonblocking, hrl]
    · simp [purge_recv_queue, UdpState.set_nonblocking, hrl]
  | none :: rest, _ =>
    rcases hrl : recvPurgeLoop rs with ⟨res, rem⟩
    rcases res with e | u
    · match rest with
      | [] => simp [purge_recv_queue, UdpState.set_nonblocking, hrl]
      | none :: r2 => simp [purge_recv_queue, UdpState.set_nonblocking, hrl]
      | some err :: r2 => simp [purge_recv_queue, UdpState.set_nonblocking, hrl]
    · match rest with
      | [] => simp [purge_recv_queue, UdpState.set_nonblocking, hrl]
      | none :: r2 => simp [purge_recv_queue, UdpState.set_nonblocking, hrl]
      | some err :: r2 => simp [purge_recv_queue, UdpState.set_nonblocking, hrl]

/-- Witness for C4's amended theorem: with a read loop that fails with
error code 7 and a restore call scripted to fail with error code 9, both
`set_nonblocking` entries are consumed and the returned error is the
read-loop error 7. -/
theorem purge_sets_blocking_and_prefers_read_error_witness :
    (([none, some (IoError.other 9)] : List (Option IoError)).head?.getD none = none)
    ∧ (purge_recv_queue
        { nonblocking := false
          recvScript := [.error (.other 7)]
          setNbScript := [none, some (.other 9)] }).2.setNbScript = []
    ∧ (purge_recv_queue
        { nonblocking := false
          recvScript := [.error (.other 7)]
          setNbScript := [none, some (.other 9)] }).1 = .error (.other 7) := by
  refine ⟨rfl, ?_, ?_⟩
  · exact (purge_sets_blocking_and_prefers_read_error
      { nonblocking := false, recvScript := [.error (.other 7)]
        setNbScript := [none, some (.other 9)] } rfl).1
  · exact (purge_sets_blocking_and_prefers_read_error
      { nonblocking := false, recvScript := [.error (.other 7)]
        setNbScript := [none, some (.other 9)] } rfl).2.2 (.other 7) (by decide)

/-- C5: pose-to-rigid-transform conversion fails with MissingPosition when
the position is absent (also when both fields are absent, position being
checked first), fails with MissingOrientation when the position is present
but the quaternion orientation is absent, and the reverse conversion always
succeeds (producing a pose with position and orientation present). -/
theorem pose_conversion_error_cases (p : EgmPose) (i : Isometry3) :
    (Isometry3.tryOfEgmPose p = .error .missingPosition ↔ p.pos = none)
    ∧ (p.pos ≠ none → p.orient = none →
        Isometry3.tryOfEgmPose p = .error .missingOrientation)
    ∧ ((EgmPose.ofIsometry3 i).pos.isSome ∧ (EgmPose.ofIsometry3 i).orient.isSome) := by
  obtain ⟨pos, orient, euler⟩ := p
  refine ⟨?_, ?_, by simp [EgmPose.ofIsometry3, EgmPose.new]⟩
  · cases pos <;> cases orient <;> simp [Isometry3.tryOfEgmPose]
  · cases pos <;> cases orient <;> simp [Isometry3.tryOfEgmPose]

/-- Witness for C5: a pose missing both fields yields MissingPosition and a
pose with only a position yields MissingOrientation. -/
theorem pose_conversion_error_cases_witness :
    Isometry3.tryOfEgmPose { pos := none, orient := none, euler := none }
      = .error .missingPosition
    ∧ Isometry3.tryOfEgmPose
        { pos := some { x := .fin 1, y := .fin 2, z := .fin 3 }
          orient := none, euler := none }
      = .error .missingOrientation := by
  constructor
  · exact (pose_conversion_error_cases { pos := none, orient := none, euler := none }
      { translation := { x := .fin 0, y := .fin 0, z := .fin 0 }
        rotation := { u0 := .fin 1, u1 := .fin 0, u2 := .fin 0, u3 := .fin 0 } }).1.mpr rfl
  · exact (pose_conversion_error_cases
      { pos := some { x := .fin 1, y := .fin 2, z := .fin 3 }
        orient := none, euler := none }
      { translation := { x := .fin 0, y := .fin 0, z := .fin 0 }
        rotation := { u0 := .fin 1, u1 := .fin 0, u2 := .fin 0, u3 := .fin 0 } }).2.1
      (by simp) rfl

/-- C7: the cartesian-speed-to-vector conversion succeeds iff the value
list has exactly 3 components, otherwise fails with WrongNumberOfValues
carrying the actual component count; the reverse conversion always
produces exactly 3 components. -/
theorem cartesian_speed_conversion_cases (s : EgmCartesianSpeed) (v : Vector3) :
    ((Vector3.tryOfEgmCartesianSpeed s).toOption.isSome ↔ s.value.length = 3)
    ∧ (s.value.length ≠ 3 →
        Vector3.tryOfEgmCartesianSpeed s
          = .error (.wrongNumberOfValues s.value.length))
    ∧ (EgmCartesianSpeed.ofVector3 v).value.length = 3 := by
  refine ⟨?_, fun h => ?_, rfl⟩
  · by_cases h : s.value.length = 3 <;>
      simp [Vector3.tryOfEgmCartesianSpeed, h, Except.toOption]
  · simp [Vector3.tryOfEgmCartesianSpeed, h]

/-- Witness for C7: a length-2 list fails with payload 2, a length-4 list
fails with payload 4, and a length-3 list succeeds. -/
theorem cartesian_speed_conversion_cases_witness :
    Vector3.tryOfEgmCartesianSpeed { value := [.fin 1, .fin 2] }
      = .error (.wrongNumberOfValues 2)
    ∧ Vector3.tryOfEgmCartesianSpeed { value := [.fin 9, .fin 8, .fin 7, .fin 6] }
      = .error (.wrongNumberOfValues 4)
    ∧ (Vector3.tryOfEgmCartesianSpeed { value := [.fin 1, .fin 2, .fin 3] }).toOption.isSome
      = true := by
  refine ⟨?_, ?_, ?_⟩
  · exact (cartesian_speed_conversion_cases { value := [.fin 1, .fin 2] }
      { x := .fin 0, y := .fin 0, z := .fin 0 }).2.1 (by decide)
  · exact (cartesian_speed_conversion_cases { value := [.fin 9, .fin 8, .fin 7, .fin 6] }
      { x := .fin 0, y := .fin 0, z := .fin 0 }).2.1 (by decide)
  · exact (cartesian_speed_conversion_cases { value := [.fin 1, .fin 2, .fin 3] }
      { x := .fin 0, y := .fin 0, z := .fin 0 }).1.mpr (by decide)

/-- `Rat.sqrt 1 = 1`, specializing the exactness of `Rat.sqrt` on perfect
squares. -/
lemma rat_sqrt_one : Rat.sqrt 1 = 1 := by
  rw [show (1 : ℚ) = 1 * 1 by norm_num, Rat.sqrt_eq]
  norm_num

/-- `Rat.sqrt 4 = 2`, specializing the exactness of `Rat.sqrt` on perfect
squares. -/
lemma rat_sqrt_four : Rat.sqrt 4 = 2 := by
  rw [show (4 : ℚ) = 2 * 2 by norm_num, Rat.sqrt_eq]
  norm_num

/-- A quaternion whose squared norm is exactly 1 is left unchanged by the
normalization performed in the pose-to-isometry conversion. -/
lemma egm_quaternion_normalize_of_normSq_one (q : EgmQuaternion)
    (h : q.normSq = .fin 1) : q.normalize = q := by
  obtain ⟨a, b, c, d⟩ := q
  cases a <;> cases b <;> cases c <;> cases d <;>
    simp [EgmQuaternion.normSq, F64.mulv, F64.addv] at h
  norm_num [EgmQuaternion.normalize, EgmQuaternion.normSq, F64.mulv, F64.addv,
    F64.sqrtv, F64.divv, h, rat_sqrt_one]

/-- A pose whose orientation quaternion is scaled by 2: geometrically a
valid input (position and orientation both present) on which the claimed
exact round-trip fails. -/
def scaledQuatPose : EgmPose :=
  EgmPose.new { x := .fin 0, y := .fin 0, z := .fin 0 }
    { u0 := .fin 2, u1 := .fin 0, u2 := .fin 0, u3 := .fin 0 }

/-- C8 counterexample: a pose with both position and orientation present
converts successfully, but converting back yields the normalized
orientation `(1, 0, 0, 0)` rather than the original `(2, 0, 0, 0)`: the
round-trip is not exact for every pose with both fields present. -/
theorem pose_roundtrip_not_exact :
    (Isometry3.tryOfEgmPose scaledQuatPose).map EgmPose.ofIsometry3
      = .ok (EgmPose.new { x := .fin 0, y := .fin 0, z := .fin 0 }
          { u0 := .fin 1, u1 := .fin 0, u2 := .fin 0, u3 := .fin 0 })
    ∧ (Isometry3.tryOfEgmPose scaledQuatPose).map EgmPose.ofIsometry3
      ≠ .ok scaledQuatPose := by
  have hcalc : Isometry3.tryOfEgmPose scaledQuatPose
      = .ok { translation := { x := .fin 0, y := .fin 0, z := .fin 0 }
              rotation := { u0 := .fin 1, u1 := .fin 0, u2 := .fin 0, u3 := .fin 0 } } := by
    norm_num [scaledQuatPose, EgmPose.new, Isometry3.tryOfEgmPose,
      EgmQuaternion.normalize, EgmQuaternion.normSq, F64.mulv, F64.addv,
      F64.sqrtv, F64.divv, rat_sqrt_four, Vector3.ofEgmCartesian]
  refine ⟨by rw [hcalc]; rfl, ?_⟩
  rw [hcalc]
  intro hcontra
  norm_num [scaledQuatPose, Except.map, EgmPose.ofIsometry3, EgmPose.new,
    EgmCartesian.ofVector3] at hcontra

/-- C8 (amended): for every pose with both position and quaternion
orientation present, the conversion succeeds (with the normalized
orientation as rotation), the position always round-trips exactly, and the
orientation round-trips exactly when the quaternion has squared norm
exactly 1 (so the normalization inside the conversion is the identity). -/
theorem pose_roundtrip_with_both_present (p : EgmPose) (c : EgmCartesian)
    (q : EgmQuaternion) (hpos : p.pos = some c) (hq : p.orient = some q) :
    Isometry3.tryOfEgmPose p
      = .ok { translation := Vector3.ofEgmCartesian c, rotation := q.normalize }
    ∧ (EgmPose.ofIsometry3
        { translation := Vector3.ofEgmCartesian c, rotation := q.normalize }).pos
      = some c
    ∧ (q.normSq = .fin 1 →
        EgmPose.ofIsometry3
          { translation := Vector3.ofEgmCartesian c, rotation := q.normalize }
        = EgmPose.new c q) := by
  refine ⟨?_, ?_, fun hunit => ?_⟩
  · simp [Isometry3.tryOfEgmPose, hpos, hq]
  · obtain ⟨cx, cy, cz⟩ := c
    simp [EgmPose.ofIsometry3, EgmPose.new, EgmCartesian.ofVector3,
      Vector3.ofEgmCartesian]
  · rw [egm_quaternion_normalize_of_normSq_one q hunit]
    obtain ⟨cx, cy, cz⟩ := c
    simp [EgmPose.ofIsometry3, EgmPose.new, EgmCartesian.ofVector3,
      Vector3.ofEgmCartesian]

/-- A complete pose whose orientation is the identity quaternion. -/
def unitQuatPose : EgmPose :=
  EgmPose.new { x := .fin 5, y := .fin 6, z := .fin 7 }
    { u0 := .fin 1, u1 := .fin 0, u2 := .fin 0, u3 := .fin 0 }

/-- Witness for C8's amended theorem: the identity-orientation pose has
unit squared norm, converts successfully, its position round-trips, and
(the unit-norm implication discharged) it round-trips exactly. -/
theorem pose_roundtrip_with_both_present_witness :
    ({ u0 := F64.fin 1, u1 := F64.fin 0, u2 := F64.fin 0, u3 := F64.fin 0 }
        : EgmQuaternion).normSq = .fin 1
    ∧ Isometry3.tryOfEgmPose unitQuatPose
      = .ok { translation := { x := .fin 5, y := .fin 6, z := .fin 7 }
              rotation := ({ u0 := .fin 1, u1 := .fin 0, u2 := .fin 0
                             u3 := .fin 0 } : EgmQuaternion).normalize }
    ∧ (EgmPose.ofIsometry3
        { translation := { x := .fin 5, y := .fin 6, z := .fin 7 }
          rotation := ({ u0 := .fin 1, u1 := .fin 0, u2 := .fin 0
                         u3 := .fin 0 } : EgmQuaternion).normalize }).pos
      = some { x := .fin 5, y := .fin 6, z := .fin 7 }
    ∧ EgmPose.ofIsometry3
        { translation := { x := .fin 5, y := .fin 6, z := .fin 7 }
          rotation := ({ u0 := .fin 1, u1 := .fin 0, u2 := .fin 0
                         u3 := .fin 0 } : EgmQuaternion).normalize }
      = EgmPose.new { x := .fin 5, y := .fin 6, z := .fin 7 }
          { u0 := .fin 1, u1 := .fin 0, u2 := .fin 0, u3 := .fin 0 } := by
  have hunit : ({ u0 := F64.fin 1, u1 := F64.fin 0, u2 := F64.fin 0, u3 := F64.fin 0 }
      : EgmQuaternion).normSq = .fin 1 := by
    norm_num [EgmQuaternion.normSq, F64.mulv, F64.addv]
  have h := pose_roundtrip_with_both_present unitQuatPose
    { x := .fin 5, y := .fin 6, z := .fin 7 }
    { u0 := .fin 1, u1 := .fin 0, u2 := .fin 0, u3 := .fin 0 } rfl rfl
  exact ⟨hunit, h.1, h.2.1, h.2.2 hunit⟩

end Abbegm
